import Mathlib

/-!
Shallow embedding of `src/import_books.py` (FamilyBooks BookBuddy import
script) and verification of the frozen claims about it.

Network I/O is modelled by passing each lookup the decoded response it
would have received: `Except Unit α` is `.ok payload` for a successfully
decoded response and `.error ()` for any caught exception (connection
error, timeout, malformed JSON).  Python dicts are modelled as
association lists; a JSON field that may be absent is an `Option`.
-/

namespace FamilyBooks

/-- A book record as built by the Source Reader from one CSV row
(`parse_bookbuddy_csv` in the source). -/
structure BookRecord where
  title : String
  authors : String
  isbn : String
  publisher : String
  publishDate : String
  numberOfPages : String
  notes : String
  coverURL : String
  addedBy : String
  addedAt : String
  copies : Nat
  readingStatus : String
  isWishlist : Bool
  deriving DecidableEq

/-- One result document of the Open Library search endpoint as read by the
code: an optional `isbn` string list and an optional numeric `cover_i`
identifier. -/
structure SearchDoc where
  isbn : Option (List String)
  cover_i : Option Nat
  deriving DecidableEq

/-- Return value of `search_open_library`: the dict `{'isbn': ..., 'cover_url': ...}`. -/
structure SearchResult where
  isbn : String
  cover_url : String
  deriving DecidableEq

/-- Return value of `lookup_isbn` / `search_by_isbn`: the dict `{'cover_url': ...}`. -/
structure CoverResult where
  cover_url : String
  deriving DecidableEq

/-- The `cover` sub-object of a by-ISBN bibliographic entry. -/
structure CoverObj where
  medium : Option String
  small : Option String
  deriving DecidableEq

/-- One entry of the by-ISBN endpoint response (only the `cover` field is read). -/
structure BookData where
  cover : Option CoverObj
  deriving DecidableEq

/-- Python dict read `d.get(key)` over an association list (first matching key). -/
def lookupKey {α : Type} : List (String × α) → String → Option α
  | [], _ => none
  | (k, v) :: rest, key => if k = key then some v else lookupKey rest key

/-- Python dict write `d[key] = v` over an association list. -/
def setKey {α : Type} : List (String × α) → String → α → List (String × α)
  | [], key, v => [(key, v)]
  | (k, w) :: rest, key, v =>
    if k = key then (key, v) :: rest else (k, w) :: setKey rest key v

/-- ISBN selection of `search_open_library` (lines 65-73): first
13-character entry of the result's isbn list, else its first entry. -/
def selectIsbn (isbns : List String) : String :=
  match isbns.find? (fun s => s.length == 13) with
  | some s => s
  | none =>
    match isbns with
    | [] => ""
    | s :: _ => s

/-- Cover URL derived from a numeric `cover_i` identifier
(`https://covers.openlibrary.org/b/id/{cover_i}-M.jpg`); absent identifier
gives an empty URL. -/
def coverUrlOf : Option Nat → String
  | some c => "https://covers.openlibrary.org/b/id/" ++ Nat.repr c ++ "-M.jpg"
  | none => ""

/-- `search_open_library(title, author)` (lines 37-83).  `net` is the
decoded `docs` list of the search response, or `.error ()` for a caught
exception.  With both `title` and `author` empty no request is made and
`None` is returned. -/
def search_open_library (net : Except Unit (List SearchDoc))
    (title author : String) : Option SearchResult :=
  if title = "" ∧ author = "" then none
  else
    match net with
    | .error _ => none
    | .ok docs =>
      match docs with
      | [] => none
      | doc :: _ =>
        some { isbn := match doc.isbn with
                       | some l => if l.isEmpty then "" else selectIsbn l
                       | none => ""
               cover_url := coverUrlOf doc.cover_i }

/-- `search_by_isbn(isbn)` (lines 116-138): search endpoint filtered by
ISBN, cover URL derived exactly as in `search_open_library`. -/
def search_by_isbn (net : Except Unit (List SearchDoc))
    (isbn : String) : Option CoverResult :=
  match net with
  | .error _ => none
  | .ok docs =>
    match docs with
    | [] => none
    | doc :: _ => some { cover_url := coverUrlOf doc.cover_i }

/-- The normalization `isbn.replace('-', '').replace(' ', '')` at line 90. -/
def cleanIsbn (s : String) : String :=
  String.mk (s.data.filter (fun c => !(c == '-' || c == ' ')))

/-- `lookup_isbn(isbn)` (lines 86-113).  `bib` is the decoded by-ISBN
endpoint response (a JSON object, modelled as an association list), `srch`
the decoded `docs` list the `search_by_isbn` fallback would receive. -/
def lookup_isbn (bib : Except Unit (List (String × BookData)))
    (srch : Except Unit (List SearchDoc)) (isbn0 : String) : Option CoverResult :=
  match bib with
  | .error _ => none
  | .ok data =>
    let isbn := cleanIsbn isbn0
    match lookupKey data ("ISBN:" ++ isbn) with
    | none => search_by_isbn srch isbn
    | some book_data =>
      some { cover_url := match book_data.cover with
                          | some c => c.medium.getD (c.small.getD "")
                          | none => "" }

/-- One row of the input CSV: each named column is `some value` when the
column is present and `none` when absent (`row.get(...)`). -/
structure CsvRow where
  title : Option String
  author : Option String
  isbn : Option String
  publisher : Option String
  yearPublished : Option String
  numberOfPages : Option String
  notes : Option String
  wishList : Option String
  status : Option String
  deriving DecidableEq

/-- Python's `str.strip()`: remove leading and trailing whitespace. -/
def pyStrip (s : String) : String :=
  String.mk (((s.data.dropWhile Char.isWhitespace).reverse.dropWhile
    Char.isWhitespace).reverse)

/-- The `.replace('-', '')` applied to the CSV ISBN column (line 153). -/
def stripHyphens (s : String) : String :=
  String.mk (s.data.filter (fun c => !(c == '-')))

/-- The reading-status mapping of lines 166-173, applied to the already
stripped `Status` value. -/
def mapStatus (status : String) : String :=
  if status = "Read" then "Read"
  else if status = "Reading" then "Reading"
  else if status = "Unread" ∨ status = "Want to Read" then "Want to Read"
  else ""

/-- Building one `BookRecord` from a CSV row (lines 150-173); `now` is the
`datetime.now().isoformat()` timestamp. -/
def parseRow (now : String) (row : CsvRow) : BookRecord :=
  { title := pyStrip (row.title.getD "")
    authors := pyStrip (row.author.getD "")
    isbn := stripHyphens (pyStrip (row.isbn.getD ""))
    publisher := pyStrip (row.publisher.getD "")
    publishDate := pyStrip (row.yearPublished.getD "")
    numberOfPages := pyStrip (row.numberOfPages.getD "")
    notes := pyStrip (row.notes.getD "")
    coverURL := ""
    addedBy := "BookBuddy Import"
    addedAt := now
    copies := 1
    readingStatus := mapStatus (pyStrip (row.status.getD ""))
    isWishlist := row.wishList.getD "0" == "1" }

/-- `parse_bookbuddy_csv` (lines 141-178): map rows to records, keeping
only those with a non-empty (trimmed) title. -/
def parse_bookbuddy_csv (now : String) : List CsvRow → List BookRecord
  | [] => []
  | row :: rest =>
    let book := parseRow now row
    if book.title ≠ "" then book :: parse_bookbuddy_csv now rest
    else parse_bookbuddy_csv now rest

/-- A progress-file entry `{"isbn": ..., "coverURL": ...}`; fields are
optional because the loaded JSON may lack them (`cached.get(...)`). -/
structure ProgressEntry where
  isbn : Option String
  coverURL : Option String
  deriving DecidableEq

/-- The progress file `{"processed": {...}, "last_index": n}`. -/
structure ProgressState where
  processed : List (String × ProgressEntry)
  last_index : Nat
  deriving DecidableEq

/-- The decoded network responses available to one loop iteration: the
by-ISBN endpoint response, the search response the by-ISBN fallback would
get, and the title/author search response. -/
structure NetEnv where
  bib : Except Unit (List (String × BookData))
  isbnSearch : Except Unit (List SearchDoc)
  titleSearch : Except Unit (List SearchDoc)

/-- The natural key `f"{title}|{book['authors']}"` of line 202. -/
def naturalKey (b : BookRecord) : String := b.title ++ "|" ++ b.authors

/-- The title/author fallback of lines 225-230 and 234-241 reduced to the
cover it yields: the found cover URL when the search returns a result,
otherwise the empty string. -/
def fallbackCover (env : NetEnv) (b : BookRecord) : String :=
  match search_open_library env.titleSearch b.title b.authors with
  | some r => if r.cover_url ≠ "" then r.cover_url else ""
  | none => ""

/-- The cache-miss resolution of lines 214-243, returning the final
`(isbn, cover_url)` pair stored at lines 245-246. -/
def resolveLookup (env : NetEnv) (b : BookRecord) : String × String :=
  if b.isbn ≠ "" then
    match lookup_isbn env.bib env.isbnSearch b.isbn with
    | some r =>
      if r.cover_url ≠ "" then (b.isbn, r.cover_url) else (b.isbn, fallbackCover env b)
    | none => (b.isbn, fallbackCover env b)
  else
    match search_open_library env.titleSearch b.title b.authors with
    | some r =>
      ( if r.isbn ≠ "" then r.isbn else b.isbn,
        if r.cover_url ≠ "" then r.cover_url else "" )
    | none => (b.isbn, "")

/-- Number of HTTP requests `search_open_library` issues: none when both
parameters are empty, one otherwise. -/
def searchCallCount (title author : String) : Nat :=
  if title = "" ∧ author = "" then 0 else 1

/-- Number of HTTP requests `lookup_isbn` issues: one, plus one more when
the by-ISBN endpoint has no entry and `search_by_isbn` is tried. -/
def lookupIsbnCallCount (bib : Except Unit (List (String × BookData)))
    (isbn0 : String) : Nat :=
  match bib with
  | .error _ => 1
  | .ok data =>
    if (lookupKey data ("ISBN:" ++ cleanIsbn isbn0)).isSome then 1 else 2

/-- Number of HTTP requests the cache-miss resolution issues for one record. -/
def resolveCallCount (env : NetEnv) (b : BookRecord) : Nat :=
  if b.isbn ≠ "" then
    lookupIsbnCallCount env.bib b.isbn +
      (match lookup_isbn env.bib env.isbnSearch b.isbn with
       | some r => if r.cover_url ≠ "" then 0 else searchCallCount b.title b.authors
       | none => searchCallCount b.title b.authors)
  else searchCallCount b.title b.authors

/-- Everything one iteration of the enrichment loop produces: the record
appended to `processed_books`, the number of network calls it issued,
whether the `(i + 1) % 10 == 0` checkpoint fired, and the progress state
after the iteration. -/
structure StepOut where
  record : BookRecord
  netCalls : Nat
  checkpointed : Bool
  progressAfter : ProgressState
  deriving DecidableEq

/-- One iteration of the enrichment loop (lines 198-261) on the book at
0-based index `i`. -/
def processOne (env : NetEnv) (p : ProgressState) (i : Nat) (b : BookRecord) : StepOut :=
  match lookupKey p.processed (naturalKey b) with
  | some cached =>
    { record := { b with isbn := cached.isbn.getD b.isbn
                         coverURL := cached.coverURL.getD "" }
      netCalls := 0
      checkpointed := false
      progressAfter := p }
  | none =>
    let r := resolveLookup env b
    { record := { b with isbn := r.1, coverURL := r.2 }
      netCalls := resolveCallCount env b
      checkpointed := (i + 1) % 10 == 0
      progressAfter := { processed := setKey p.processed (naturalKey b) ⟨some r.1, some r.2⟩
                         last_index := i } }

/-- The enrichment loop from index `i` onward; `net` gives each iteration
its decoded network responses. -/
def runSteps (net : Nat → NetEnv) : ProgressState → Nat → List BookRecord → List StepOut
  | _, _, [] => []
  | p, i, b :: rest =>
    let o := processOne (net i) p i b
    o :: runSteps net o.progressAfter (i + 1) rest

/-- Progress state after the loop (the state the unconditional final
`save_progress` at line 264 writes). -/
def finalProgress (p0 : ProgressState) (outs : List StepOut) : ProgressState :=
  match outs.getLast? with
  | some o => o.progressAfter
  | none => p0

/-- The whole enrichment phase of `main`: per-iteration outputs, the
`processed_books` list, and the sequence of progress states persisted
(mid-loop checkpoints in order, then the unconditional final save). -/
structure RunResult where
  steps : List StepOut
  processedBooks : List BookRecord
  saves : List ProgressState
  deriving DecidableEq

/-- `main`'s enrichment loop plus final save (lines 196-264). -/
def mainRun (net : Nat → NetEnv) (p0 : ProgressState) (books : List BookRecord) : RunResult :=
  let outs := runSteps net p0 0 books
  { steps := outs
    processedBooks := outs.map (fun o => o.record)
    saves := (outs.filter (fun o => o.checkpointed)).map (fun o => o.progressAfter)
             ++ [finalProgress p0 outs] }

/-- One value of the output JSON object (lines 274-288). -/
structure OutputDoc where
  isbn : String
  title : String
  authors : String
  publisher : String
  publishDate : String
  numberOfPages : String
  coverURL : String
  notes : String
  addedBy : String
  addedAt : Int
  copies : Nat
  readingStatus : String
  isWishlist : Bool
  deriving DecidableEq

/-- Little-endian decimal digits of `n`, computed with explicit fuel so
that the kernel can evaluate it (`fuel ≥ n` suffices). -/
def decDigitsAux : Nat → Nat → List Nat
  | 0, _ => []
  | fuel + 1, n => if n = 0 then [] else n % 10 :: decDigitsAux fuel (n / 10)

/-- The characters of the decimal representation of `n` (most significant
first), i.e. Python's `"%d" % n`. -/
def decChars (n : Nat) : List Char :=
  if n = 0 then ['0'] else ((decDigitsAux n n).reverse).map Nat.digitChar

/-- Left-pad with zeros to at least four characters, i.e. the `04` in
Python's `%04d`. -/
def padChars (l : List Char) : List Char :=
  List.replicate (4 - l.length) '0' ++ l

/-- The output key `f"book_{i:04d}"` of line 273. -/
def bookKey (i : Nat) : String :=
  String.mk ("book_".data ++ padChars (decChars i))

/-- The flattened projection of one enriched record (lines 274-288);
`stamp` is the `int(datetime.now().timestamp() * 1000)` serialization
timestamp. -/
def toOutputDoc (stamp : Int) (b : BookRecord) : OutputDoc :=
  { isbn := b.isbn
    title := b.title
    authors := b.authors
    publisher := b.publisher
    publishDate := b.publishDate
    numberOfPages := b.numberOfPages
    coverURL := b.coverURL
    notes := b.notes
    addedBy := b.addedBy
    addedAt := stamp
    copies := b.copies
    readingStatus := b.readingStatus
    isWishlist := b.isWishlist }

/-- The output document built at lines 271-288, as an ordered key/value
list (Python dicts preserve insertion order). -/
def firebaseBooks (stamp : Int) (books : List BookRecord) : List (String × OutputDoc) :=
  books.enum.map (fun p => (bookKey p.1, toOutputDoc stamp p.2))

/-- The summary statistics printed at lines 296-306. -/
structure Summary where
  total : Nat
  withIsbn : Nat
  withCover : Nat
  pctIsbn : Rat
  pctCover : Rat
  missingIsbn : Nat
  missingCover : Nat
  deriving DecidableEq

/-- Python true division, which raises `ZeroDivisionError` on a zero
divisor; the raised error is modelled as `none`. -/
def pyDiv (a b : Rat) : Option Rat := if b = 0 then none else some (a / b)

/-- The summary computation of lines 296-306: `none` when the percentage
divisions by `len(processed_books)` raise `ZeroDivisionError`. -/
def summaryStats (books : List BookRecord) : Option Summary :=
  let total := books.length
  let withIsbn := (books.filter (fun b => b.isbn != "")).length
  let withCover := (books.filter (fun b => b.coverURL != "")).length
  match pyDiv (100 * (withIsbn : Rat)) (total : Rat),
        pyDiv (100 * (withCover : Rat)) (total : Rat) with
  | some p1, some p2 =>
    some { total := total
           withIsbn := withIsbn
           withCover := withCover
           pctIsbn := p1
           pctCover := p2
           missingIsbn := total - withIsbn
           missingCover := total - withCover }
  | _, _ => none

/-- `l.dropWhile` on leading zero characters, used to invert zero padding. -/
def stripZeros (l : List Char) : List Char := l.dropWhile (fun c => c == '0')

/-! Concrete fixtures used to instantiate the theorems below. -/

/-- A minimal book record with non-empty title and authors. -/
def defBook : BookRecord :=
  { title := "t", authors := "a", isbn := "", publisher := "", publishDate := ""
    numberOfPages := "", notes := "", coverURL := "", addedBy := "BookBuddy Import"
    addedAt := "now", copies := 1, readingStatus := "", isWishlist := false }

/-- A network environment in which every request fails. -/
def errEnv : NetEnv :=
  { bib := .error (), isbnSearch := .error (), titleSearch := .error () }

/-- A run-long network oracle in which every request fails. -/
def netErr : Nat → NetEnv := fun _ => errEnv

/-- The `j`-th test book, with title `T<decimal j>` so natural keys differ. -/
def mkB (j : Nat) : BookRecord := { defBook with title := String.mk ('T' :: decChars j) }

/-- Twenty-three pairwise distinct test books. -/
def books23 : List BookRecord := (List.range 23).map mkB

/-- Ten pairwise distinct test books. -/
def books10 : List BookRecord := (List.range 10).map mkB

/-- An empty progress state (fresh run). -/
def emptyP : ProgressState := { processed := [], last_index := 0 }

/-- A progress state already containing the natural keys of `books10`. -/
def hitP : ProgressState :=
  { processed := (List.range 10).map (fun j => (naturalKey (mkB j), ⟨some "i", some "c"⟩)),
    last_index := 0 }

/-- A record with CSV-derived ISBN `A`. -/
def bA : BookRecord := { defBook with isbn := "A" }

/-- A record with the same natural key as `bA` but CSV-derived ISBN `B`. -/
def bB : BookRecord := { defBook with isbn := "B" }

/-- A progress state whose cached entry for `bA`'s key carries a different
isbn and no coverURL field. -/
def pDiff : ProgressState :=
  { processed := [(naturalKey bA, ⟨some "B", none⟩)], last_index := 0 }

/-- A CSV row whose `Status` column is the string `" Read"` (with a
leading space). -/
def row7 : CsvRow :=
  { title := some "A", author := none, isbn := none, publisher := none,
    yearPublished := none, numberOfPages := none, notes := none, wishList := none,
    status := some " Read" }

/-- A CSV row whose `Status` column is exactly `"Unread"`. -/
def row7w : CsvRow :=
  { title := some "A", author := none, isbn := none, publisher := none,
    yearPublished := none, numberOfPages := none, notes := none, wishList := none,
    status := some "Unread" }

/-- The spec scenario row with empty `Title` and `Author` set to `X`. -/
def row9 : CsvRow :=
  { title := some "", author := some "X", isbn := none, publisher := none,
    yearPublished := none, numberOfPages := none, notes := none, wishList := none,
    status := none }

/-- A search result document whose isbn list holds a 10-character entry
followed by a 13-character entry. -/
def doc5 : SearchDoc := { isbn := some ["ab", "1234567890123"], cover_i := none }

/-- A by-ISBN endpoint entry with both medium and small covers. -/
def bd6 : BookData := { cover := some { medium := some "M", small := some "S" } }

/-- A by-ISBN endpoint response holding `bd6` under key `ISBN:123`. -/
def data6 : List (String × BookData) := [("ISBN:123", bd6)]

/-! Helper lemmas about the embedded operations. -/

/-- Looking up the key just written returns the written value. -/
theorem lookupKey_setKey_self {α : Type} (m : List (String × α)) (k : String) (v : α) :
    lookupKey (setKey m k v) k = some v := by
  induction m with
  | nil => simp [setKey, lookupKey]
  | cons kv rest ih =>
    obtain ⟨k0, v0⟩ := kv
    by_cases h0 : k0 = k
    · simp [setKey, h0, lookupKey]
    · simp [setKey, h0, lookupKey, ih]

/-- Writing one key leaves the lookup of any other key unchanged. -/
theorem lookupKey_setKey_ne {α : Type} (m : List (String × α)) (k key : String) (v : α)
    (h : key ≠ k) : lookupKey (setKey m k v) key = lookupKey m key := by
  induction m with
  | nil => simp [setKey, lookupKey, Ne.symm h]
  | cons kv rest ih =>
    obtain ⟨k0, v0⟩ := kv
    by_cases h0 : k0 = k
    · subst h0
      simp [setKey, lookupKey, Ne.symm h]
    · simp only [setKey, if_neg h0, lookupKey, ih]

/-- A failed search request yields no result. -/
theorem search_open_library_error (title author : String) :
    search_open_library (.error ()) title author = none := by
  by_cases h : title = "" ∧ author = "" <;> simp [search_open_library, h]

/-- With a failed title/author search the fallback yields an empty cover. -/
theorem fallbackCover_error (env : NetEnv) (b : BookRecord)
    (h : env.titleSearch = .error ()) : fallbackCover env b = "" := by
  simp [fallbackCover, h, search_open_library_error]

/-- On the branch for records that already have an ISBN, resolution never
changes the ISBN. -/
theorem resolveLookup_fst (env : NetEnv) (b : BookRecord) (h : b.isbn ≠ "") :
    (resolveLookup env b).1 = b.isbn := by
  simp only [resolveLookup, if_pos h]
  cases lookup_isbn env.bib env.isbnSearch b.isbn with
  | none => rfl
  | some r => by_cases hc : r.cover_url ≠ "" <;> simp [hc]

/-- When every request fails, resolution keeps the CSV ISBN and leaves the
cover empty. -/
theorem resolveLookup_error (env : NetEnv) (b : BookRecord)
    (hb : env.bib = .error ()) (ht : env.titleSearch = .error ()) :
    resolveLookup env b = (b.isbn, "") := by
  by_cases h : b.isbn ≠ ""
  · simp [resolveLookup, h, lookup_isbn, hb, fallbackCover_error _ _ ht]
  · simp [resolveLookup, h, ht, search_open_library_error]

/-- Enrichment never touches title or authors, so the natural key of the
appended record is that of the input record. -/
theorem naturalKey_processOne (env : NetEnv) (p : ProgressState) (i : Nat) (b : BookRecord) :
    naturalKey (processOne env p i b).record = naturalKey b := by
  unfold processOne
  cases h : lookupKey p.processed (naturalKey b) <;> simp [naturalKey]

/-- A key present in the progress mapping stays present across any loop
iteration. -/
theorem processOne_preserves_key (env : NetEnv) (p : ProgressState) (i : Nat)
    (b : BookRecord) (k : String) (h : (lookupKey p.processed k).isSome) :
    (lookupKey (processOne env p i b).progressAfter.processed k).isSome := by
  unfold processOne
  cases hm : lookupKey p.processed (naturalKey b) with
  | some e => simpa using h
  | none =>
    simp only
    by_cases hk : k = naturalKey b
    · subst hk
      rw [lookupKey_setKey_self]
      rfl
    · rw [lookupKey_setKey_ne _ _ _ _ hk]
      exact h

/-- `find?` for 13-character strings returns the first such entry. -/
theorem find13_append (l1 l2 : List String) (x : String) (hx : x.length = 13)
    (h1 : ∀ y ∈ l1, y.length ≠ 13) :
    (l1 ++ x :: l2).find? (fun s => s.length == 13) = some x := by
  induction l1 with
  | nil => simp [List.find?_cons, hx]
  | cons y ys ih =>
    have hy : (y.length == 13) = false := by simpa using h1 y (by simp)
    simp only [List.cons_append, List.find?_cons, hy]
    exact ih (fun z hz => h1 z (by simp [hz]))

/-- The ISBN selection picks the first 13-character entry when one exists. -/
theorem selectIsbn_first13 (l1 l2 : List String) (x : String) (hx : x.length = 13)
    (h1 : ∀ y ∈ l1, y.length ≠ 13) : selectIsbn (l1 ++ x :: l2) = x := by
  unfold selectIsbn
  rw [find13_append l1 l2 x hx h1]

/-- Without any 13-character entry the ISBN selection takes the head. -/
theorem selectIsbn_no13 (x : String) (l : List String)
    (h : ∀ y ∈ x :: l, y.length ≠ 13) : selectIsbn (x :: l) = x := by
  unfold selectIsbn
  have hn : (x :: l).find? (fun s => s.length == 13) = none := by
    rw [List.find?_eq_none]
    intro z hz
    simpa using h z hz
  rw [hn]

/-! Injectivity of the `book_%04d` key formatting. -/

/-- With enough fuel, `decDigitsAux` computes the base-10 digits. -/
theorem decDigitsAux_eq_digits : ∀ (fuel n : Nat), n ≤ fuel →
    decDigitsAux fuel n = Nat.digits 10 n := by
  intro fuel
  induction fuel with
  | zero =>
    intro n hn
    have : n = 0 := Nat.le_zero.mp hn
    subst this
    simp [decDigitsAux]
  | succ fuel ih =>
    intro n hn
    by_cases h0 : n = 0
    · subst h0
      simp [decDigitsAux]
    · have hdiv : n / 10 < n := Nat.div_lt_self (Nat.pos_of_ne_zero h0) (by omega)
      rw [show decDigitsAux (fuel + 1) n = n % 10 :: decDigitsAux fuel (n / 10) by
            simp [decDigitsAux, h0],
          ih (n / 10) (by omega),
          Nat.digits_def' (by omega : 1 < 10) (Nat.pos_of_ne_zero h0)]

/-- `decChars` in terms of `Nat.digits`. -/
theorem decChars_eq (n : Nat) :
    decChars n =
      if n = 0 then ['0'] else ((Nat.digits 10 n).reverse).map Nat.digitChar := by
  unfold decChars
  rw [decDigitsAux_eq_digits n n le_rfl]

/-- `Nat.digitChar` is injective below 10. -/
theorem digitChar_inj_lt : ∀ a, a < 10 → ∀ b, b < 10 →
    Nat.digitChar a = Nat.digitChar b → a = b := by decide

/-- `Nat.digitChar` maps no nonzero digit to the character `0`. -/
theorem digitChar_ne_zero : ∀ a, a < 10 → a ≠ 0 → Nat.digitChar a ≠ '0' := by decide

/-- Mapping `Nat.digitChar` over digit lists (entries below 10) is injective. -/
theorem map_digitChar_inj : ∀ (l1 l2 : List Nat), (∀ d ∈ l1, d < 10) → (∀ d ∈ l2, d < 10) →
    l1.map Nat.digitChar = l2.map Nat.digitChar → l1 = l2 := by
  intro l1
  induction l1 with
  | nil =>
    intro l2 _ _ h
    cases l2 with
    | nil => rfl
    | cons b bs => simp at h
  | cons a as ih =>
    intro l2 h1 h2 h
    cases l2 with
    | nil => simp at h
    | cons b bs =>
      simp only [List.map_cons, List.cons.injEq] at h
      have ha : a = b :=
        digitChar_inj_lt a (h1 a (by simp)) b (h2 b (by simp)) h.1
      have has : as = bs :=
        ih bs (fun d hd => h1 d (by simp [hd])) (fun d hd => h2 d (by simp [hd])) h.2
      rw [ha, has]

/-- For nonzero `n`, `decChars n` starts with a nonzero digit character. -/
theorem decChars_head (n : Nat) (hn : n ≠ 0) :
    ∃ c cs, decChars n = c :: cs ∧ c ≠ '0' := by
  have hne : Nat.digits 10 n ≠ [] := Nat.digits_ne_nil_iff_ne_zero.mpr hn
  have hrevne : (Nat.digits 10 n).reverse ≠ [] := by
    simp [hne]
  obtain ⟨d, ds, hds⟩ := List.exists_cons_of_ne_nil hrevne
  have hd : (Nat.digits 10 n).getLast? = some d := by
    rw [← List.head?_reverse, hds]
    rfl
  have hdlast : (Nat.digits 10 n).getLast hne = d := by
    rw [List.getLast?_eq_getLast _ hne] at hd
    exact Option.some.inj hd
  have hdne : d ≠ 0 := hdlast ▸ Nat.getLast_digit_ne_zero 10 hn
  have hdlt : d < 10 := by
    have hmem : d ∈ Nat.digits 10 n := by
      rw [← hdlast]
      exact List.getLast_mem hne
    exact Nat.digits_lt_base (by omega) hmem
  refine ⟨Nat.digitChar d, ds.map Nat.digitChar, ?_, digitChar_ne_zero d hdlt hdne⟩
  rw [decChars_eq, if_neg hn, hds]
  rfl

/-- `decChars` is injective. -/
theorem decChars_inj {a b : Nat} (h : decChars a = decChars b) : a = b := by
  by_cases ha : a = 0 <;> by_cases hb : b = 0
  · omega
  · obtain ⟨c, cs, hcs, hc⟩ := decChars_head b hb
    rw [decChars_eq, if_pos ha, hcs] at h
    exact absurd (List.cons.inj h).1.symm hc
  · obtain ⟨c, cs, hcs, hc⟩ := decChars_head a ha
    rw [decChars_eq b, if_pos hb, hcs] at h
    exact absurd (List.cons.inj h).1 hc
  · rw [decChars_eq, if_neg ha, decChars_eq, if_neg hb] at h
    have hda : ∀ d ∈ (Nat.digits 10 a).reverse, d < 10 := fun d hd =>
      Nat.digits_lt_base (by omega) (List.mem_reverse.mp hd)
    have hdb : ∀ d ∈ (Nat.digits 10 b).reverse, d < 10 := fun d hd =>
      Nat.digits_lt_base (by omega) (List.mem_reverse.mp hd)
    have hrev := map_digitChar_inj _ _ hda hdb h
    have hdig : Nat.digits 10 a = Nat.digits 10 b :=
      List.reverse_injective hrev
    exact Nat.digits.injective 10 hdig

/-- Dropping leading zeros ignores a zero-character prefix. -/
theorem stripZeros_replicate (k : Nat) (l : List Char) :
    stripZeros (List.replicate k '0' ++ l) = stripZeros l := by
  induction k with
  | zero => simp
  | succ k ih => simp [stripZeros, List.replicate_succ, List.dropWhile_cons, ih]

/-- Dropping leading zeros inverts the padding on decimal digit strings. -/
theorem stripZeros_padChars (n : Nat) :
    stripZeros (padChars (decChars n)) = if n = 0 then [] else decChars n := by
  unfold padChars
  rw [stripZeros_replicate]
  by_cases hn : n = 0
  · subst hn
    simp [decChars, stripZeros, List.dropWhile]
  · obtain ⟨c, cs, hcs, hc⟩ := decChars_head n hn
    rw [if_neg hn, hcs]
    simp [stripZeros, List.dropWhile_cons, hc]

/-- Padding decimal digit strings to width four is injective. -/
theorem padChars_decChars_inj {a b : Nat}
    (h : padChars (decChars a) = padChars (decChars b)) : decChars a = decChars b := by
  have hs := congrArg stripZeros h
  rw [stripZeros_padChars, stripZeros_padChars] at hs
  by_cases ha : a = 0 <;> by_cases hb : b = 0
  · rw [ha, hb]
  · obtain ⟨c, cs, hcs, _⟩ := decChars_head b hb
    rw [if_pos ha, if_neg hb, hcs] at hs
    exact absurd hs.symm (List.cons_ne_nil c cs)
  · obtain ⟨c, cs, hcs, _⟩ := decChars_head a ha
    rw [if_neg ha, if_pos hb, hcs] at hs
    exact absurd hs (List.cons_ne_nil c cs)
  · rw [if_neg ha, if_neg hb] at hs
    exact hs

/-- The output keys `book_%04d` are pairwise distinct. -/
theorem bookKey_injective : Function.Injective bookKey := by
  intro a b h
  have hdata := congrArg String.data h
  have hpad : padChars (decChars a) = padChars (decChars b) :=
    List.append_cancel_left hdata
  exact decChars_inj (padChars_decChars_inj hpad)

/-- In an all-miss run (fresh pairwise-distinct keys) every iteration
takes the cache-miss branch, so the checkpoint flag of the `j`-th
iteration started at index `i` is `(i + j + 1) % 10 == 0`. -/
theorem runSteps_all_miss_flags (net : Nat → NetEnv) :
    ∀ (books : List BookRecord) (p : ProgressState) (i : Nat),
    (∀ b ∈ books, lookupKey p.processed (naturalKey b) = none) →
    (books.map naturalKey).Nodup →
    (runSteps net p i books).map (fun o => o.checkpointed) =
      (List.range books.length).map (fun j => (i + j + 1) % 10 == 0) := by
  intro books
  induction books with
  | nil =>
    intro p i _ _
    rfl
  | cons b rest ih =>
    intro p i hfresh hnodup
    have hb : lookupKey p.processed (naturalKey b) = none := hfresh b (by simp)
    have hnc := List.nodup_cons.mp
      (show (naturalKey b :: rest.map naturalKey).Nodup from hnodup)
    have hfresh2 : ∀ b2 ∈ rest,
        lookupKey (processOne (net i) p i b).progressAfter.processed (naturalKey b2)
          = none := by
      intro b2 hb2
      have hne : naturalKey b2 ≠ naturalKey b := by
        intro he
        exact hnc.1 (he ▸ List.mem_map_of_mem naturalKey hb2)
      simp only [processOne, hb]
      rw [lookupKey_setKey_ne _ _ _ _ hne]
      exact hfresh b2 (by simp [hb2])
    have htail := ih (processOne (net i) p i b).progressAfter (i + 1) hfresh2 hnc.2
    have hcp : (processOne (net i) p i b).checkpointed = ((i + 1) % 10 == 0) := by
      simp [processOne, hb]
    show ((processOne (net i) p i b) ::
        runSteps net (processOne (net i) p i b).progressAfter (i + 1) rest).map
          (fun o => o.checkpointed) = _
    rw [List.map_cons, htail, hcp, List.length_cons, List.range_succ_eq_map,
      List.map_cons, List.map_map]
    congr 1
    apply List.map_congr_left
    intro a _
    have hadd : i + (a + 1) + 1 = i + 1 + a + 1 := by omega
    simp [Function.comp, Nat.succ_eq_add_one, hadd]

/-- Among the first `n` 1-based positions, exactly `n / 10` are multiples
of ten. -/
theorem countP_mod10 (n : Nat) :
    (List.range n).countP (fun j => (j + 1) % 10 == 0) = n / 10 := by
  induction n with
  | zero => rfl
  | succ n ih =>
    rw [List.range_succ, List.countP_append, ih]
    by_cases h : (n + 1) % 10 = 0
    · simp only [List.countP_cons, List.countP_nil, h]
      simp
      omega
    · simp only [List.countP_cons, List.countP_nil]
      have hf : ((n + 1) % 10 == 0) = false := by simpa using h
      simp [hf]
      omega

/-- Claim C1 as stated is false on the code: in a run of ten records that
are all cache hits, the loop reaches 1-based position 10 but the `continue`
in the cache-hit branch skips the checkpoint test, so the only persisted
state is the final unconditional save. -/
theorem c1_counterexample :
    books10.length = 10 ∧
    (∀ b ∈ books10, (lookupKey hitP.processed (naturalKey b)).isSome) ∧
    (mainRun netErr hitP books10).saves = [hitP] := by decide

/-- Claim C1 (amended): a checkpoint is persisted after every 10th record
by 1-based position when that record is processed as a cache miss
(cache-hit records skip the checkpoint test), and one more persist happens
unconditionally after the loop; in an all-cache-miss run over records with
pairwise distinct natural keys the flags are exactly the 1-based positions
divisible by ten and the number of persisted states is `N / 10 + 1`. -/
theorem c1_checkpoint_schedule (net : Nat → NetEnv) (p0 : ProgressState)
    (books : List BookRecord)
    (hfresh : ∀ b ∈ books, lookupKey p0.processed (naturalKey b) = none)
    (hkeys : (books.map naturalKey).Nodup) :
    (runSteps net p0 0 books).map (fun o => o.checkpointed) =
      (List.range books.length).map (fun j => (j + 1) % 10 == 0) ∧
    (mainRun net p0 books).saves.length = books.length / 10 + 1 := by
  have hflags : (runSteps net p0 0 books).map (fun o => o.checkpointed) =
      (List.range books.length).map (fun j => (j + 1) % 10 == 0) := by
    simpa using runSteps_all_miss_flags net books p0 0 hfresh hkeys
  refine ⟨hflags, ?_⟩
  have hfilter : ((runSteps net p0 0 books).filter (fun o => o.checkpointed)).length
      = books.length / 10 := by
    rw [← List.countP_eq_length_filter]
    have hc := congrArg (List.countP (fun x => x)) hflags
    rw [List.countP_map, List.countP_map] at hc
    have hgoal : List.countP (fun o => o.checkpointed) (runSteps net p0 0 books)
        = List.countP (fun j => (j + 1) % 10 == 0) (List.range books.length) := hc
    rw [hgoal, countP_mod10]
  simp only [mainRun, List.length_append, List.length_map, List.length_singleton, hfilter]

/-- Witness for the amended claim C1 at the spec's scenario: 23 records,
all cache misses, produce checkpoint flags at positions 10 and 20 and
three persisted states in total (two checkpoints plus the final save). -/
theorem c1_schedule_witness :
    (runSteps netErr emptyP 0 books23).map (fun o => o.checkpointed) =
      (List.range 23).map (fun j => (j + 1) % 10 == 0) ∧
    (mainRun netErr emptyP books23).saves.length = 3 := by
  have h := c1_checkpoint_schedule netErr emptyP books23 (by decide) (by decide)
  constructor
  · have h23 : books23.length = 23 := by decide
    rw [← h23]
    exact h.1
  · rw [h.2]
    decide

/-- Claim C2 as stated is false on the code: the cache-hit path can
overwrite a non-empty pre-enrichment isbn.  Run from an empty progress
store over two records sharing one natural key, with CSV ISBNs `A` and
`B`: the second record enters enrichment with the non-empty isbn `B` and
leaves it with isbn `A`, the value cached by the first record. -/
theorem c2_counterexample :
    bB.isbn = "B" ∧ bB.isbn ≠ "" ∧
    (mainRun netErr emptyP [bA, bB]).processedBooks.map (fun b => b.isbn)
      = ["A", "A"] := by decide

/-- Claim C2 (amended): for every record processed as a cache miss whose
isbn is non-empty before enrichment, the isbn after enrichment is
byte-identical to the pre-enrichment value — the cover-only fallback
search never overwrites it; on a cache hit, however, a present cached isbn
replaces the record's value. -/
theorem c2_isbn_preserved_on_miss (env : NetEnv) (p : ProgressState) (i : Nat)
    (b : BookRecord) (hmiss : lookupKey p.processed (naturalKey b) = none)
    (hisbn : b.isbn ≠ "") :
    (processOne env p i b).record.isbn = b.isbn := by
  simp only [processOne, hmiss]
  exact resolveLookup_fst env b hisbn

/-- Witness for the amended claim C2: record `bA` (isbn `A`) processed as
a cache miss against a failing network keeps isbn `A`. -/
theorem c2_miss_witness : (processOne errEnv emptyP 0 bA).record.isbn = "A" := by
  have h := c2_isbn_preserved_on_miss errEnv emptyP 0 bA (by decide) (by decide)
  exact h.trans (by decide)

/-- Claim C3: a record whose natural key is present in the processed map
when the loop reaches it gets the cached isbn and coverURL copied onto it,
triggers no network call, leaves the progress state unchanged, and is
still appended (every input record yields exactly one output record);
moreover a key present in the store is never re-queried by any later
iteration of the run. -/
theorem c3_cache_hit_no_requery :
    (∀ (env : NetEnv) (p : ProgressState) (i : Nat) (b : BookRecord) (s c : String),
      lookupKey p.processed (naturalKey b) = some { isbn := some s, coverURL := some c } →
      (processOne env p i b).record = { b with isbn := s, coverURL := c } ∧
      (processOne env p i b).netCalls = 0 ∧
      (processOne env p i b).progressAfter = p) ∧
    (∀ (net : Nat → NetEnv) (p0 : ProgressState) (i0 : Nat) (books : List BookRecord),
      ((runSteps net p0 i0 books).map (fun o => o.record)).length = books.length) ∧
    (∀ (net : Nat → NetEnv) (books : List BookRecord) (k : String)
       (p0 : ProgressState) (i0 : Nat), (lookupKey p0.processed k).isSome →
      ∀ o ∈ runSteps net p0 i0 books, naturalKey o.record = k → o.netCalls = 0) := by
  refine ⟨?_, ?_, ?_⟩
  · intro env p i b s c hhit
    refine ⟨?_, ?_, ?_⟩ <;> simp [processOne, hhit]
  · intro net p0 i0 books
    induction books generalizing p0 i0 with
    | nil => rfl
    | cons b rest ih =>
      show ((processOne (net i0) p0 i0 b ::
        runSteps net (processOne (net i0) p0 i0 b).progressAfter (i0 + 1) rest).map
          (fun o => o.record)).length = rest.length + 1
      rw [List.map_cons, List.length_cons, ih]
  · intro net books
    induction books with
    | nil =>
      intro k p0 i0 _ o ho
      simp [runSteps] at ho
    | cons b rest ih =>
      intro k p0 i0 hk o ho hko
      have hmem : o = processOne (net i0) p0 i0 b ∨
          o ∈ runSteps net (processOne (net i0) p0 i0 b).progressAfter (i0 + 1) rest :=
        List.mem_cons.mp ho
      rcases hmem with rfl | htail
      · have hkb : naturalKey b = k := by
          rw [← naturalKey_processOne (net i0) p0 i0 b]
          exact hko
        subst hkb
        obtain ⟨e, he⟩ := Option.isSome_iff_exists.mp hk
        simp [processOne, he]
      · exact ih k (processOne (net i0) p0 i0 b).progressAfter (i0 + 1)
          (processOne_preserves_key (net i0) p0 i0 b k hk) o htail hko

/-- Witness for claim C3: the first record of `books10` is a cache hit in
`hitP`, gets the cached values, makes no network call, and leaves the
progress state untouched. -/
theorem c3_witness :
    (processOne errEnv hitP 0 (mkB 0)).record =
      { mkB 0 with isbn := "i", coverURL := "c" } ∧
    (processOne errEnv hitP 0 (mkB 0)).netCalls = 0 ∧
    (processOne errEnv hitP 0 (mkB 0)).progressAfter = hitP := by
  have h := c3_cache_hit_no_requery.1 errEnv hitP 0 (mkB 0) "i" "c" (by decide)
  exact h

/-- Claim C4: every cache-miss record, whatever its lookups returned,
gets a progress entry under its natural key holding the resolved
(possibly empty) isbn and coverURL; when every request fails the resolved
pair is the record's own isbn together with an empty cover, cached exactly
like a successful result. -/
theorem c4_failed_lookup_cached :
    (∀ (env : NetEnv) (p : ProgressState) (i : Nat) (b : BookRecord),
      lookupKey p.processed (naturalKey b) = none →
      lookupKey (processOne env p i b).progressAfter.processed (naturalKey b) =
        some { isbn := some (resolveLookup env b).1
               coverURL := some (resolveLookup env b).2 }) ∧
    (∀ (env : NetEnv) (b : BookRecord), env.bib = .error () → env.titleSearch = .error () →
      resolveLookup env b = (b.isbn, "")) := by
  refine ⟨?_, ?_⟩
  · intro env p i b hmiss
    simp only [processOne, hmiss]
    exact lookupKey_setKey_self _ _ _
  · intro env b hb ht
    exact resolveLookup_error env b hb ht

/-- Witness for claim C4: record `bA` processed as a cache miss against a
failing network is cached under its natural key with its own isbn `A` and
an empty coverURL. -/
theorem c4_witness :
    lookupKey (processOne errEnv emptyP 0 bA).progressAfter.processed (naturalKey bA) =
      some { isbn := some "A", coverURL := some "" } := by
  have h := c4_failed_lookup_cached.1 errEnv emptyP 0 bA (by decide)
  exact h.trans (by decide)

/-- Filtering twice with the same predicate equals filtering once. -/
theorem filter_idem {α : Type} (p : α → Bool) (l : List α) :
    (l.filter p).filter p = l.filter p := by
  induction l with
  | nil => rfl
  | cons a as ih =>
    by_cases h : p a
    · simp [List.filter_cons, h, ih]
    · simp [List.filter_cons, h, ih]

/-- Normalizing an already normalized ISBN changes nothing. -/
theorem cleanIsbn_idem (s : String) : cleanIsbn (cleanIsbn s) = cleanIsbn s := by
  unfold cleanIsbn
  rw [show (String.mk (s.data.filter (fun c => !(c == '-' || c == ' ')))).data
      = s.data.filter (fun c => !(c == '-' || c == ' ')) from rfl]
  rw [filter_idem]

/-- Claim C5: when the search returns a first result document,
`search_open_library` selects the first 13-character entry of the
document's isbn list if one exists, otherwise the list's first entry,
and leaves the isbn empty when the list is absent or empty. -/
theorem c5_isbn_policy (doc : SearchDoc) (rest : List SearchDoc) (title author : String)
    (hp : ¬(title = "" ∧ author = "")) :
    (∀ l1 l2 x, doc.isbn = some (l1 ++ x :: l2) → x.length = 13 →
      (∀ y ∈ l1, y.length ≠ 13) →
      (search_open_library (.ok (doc :: rest)) title author).map (fun r => r.isbn)
        = some x) ∧
    (∀ x l, doc.isbn = some (x :: l) → (∀ y ∈ x :: l, y.length ≠ 13) →
      (search_open_library (.ok (doc :: rest)) title author).map (fun r => r.isbn)
        = some x) ∧
    ((doc.isbn = none ∨ doc.isbn = some []) →
      (search_open_library (.ok (doc :: rest)) title author).map (fun r => r.isbn)
        = some "") := by
  have hopen : search_open_library (.ok (doc :: rest)) title author =
      some { isbn := match doc.isbn with
                     | some l => if l.isEmpty then "" else selectIsbn l
                     | none => ""
             cover_url := coverUrlOf doc.cover_i } := by
    simp [search_open_library, hp]
  refine ⟨?_, ?_, ?_⟩
  · intro l1 l2 x hl hx h13
    rw [hopen, Option.map_some', hl]
    show some (if (l1 ++ x :: l2).isEmpty = true then "" else selectIsbn (l1 ++ x :: l2))
      = some x
    rw [if_neg (by simp), selectIsbn_first13 l1 l2 x hx h13]
  · intro x l hl h13
    rw [hopen, Option.map_some', hl]
    show some (if (x :: l).isEmpty = true then "" else selectIsbn (x :: l)) = some x
    rw [if_neg (by simp), selectIsbn_no13 x l h13]
  · intro hl
    rcases hl with hl | hl <;> rw [hopen, Option.map_some', hl] <;> simp

/-- Witness for claim C5: a result document whose isbn list holds a
2-character entry followed by a 13-character entry yields the latter. -/
theorem c5_witness :
    (search_open_library (.ok [doc5]) "t" "").map (fun r => r.isbn)
      = some "1234567890123" := by
  have h := (c5_isbn_policy doc5 [] "t" "" (by decide)).1
  exact h ["ab"] [] "1234567890123" (by decide) (by decide) (by decide)

/-- Claim C6: `lookup_isbn` first strips hyphens and spaces (its result
only depends on the normalized ISBN); a response without an entry for the
normalized key makes it return `search_by_isbn` on the normalized ISBN;
an entry present yields its medium cover URL when present, else the small
one, else an empty cover URL. -/
theorem c6_lookup_isbn_behavior (srch : Except Unit (List SearchDoc)) (isbn0 : String) :
    (∀ bib : Except Unit (List (String × BookData)),
      lookup_isbn bib srch isbn0 = lookup_isbn bib srch (cleanIsbn isbn0)) ∧
    (∀ data : List (String × BookData),
      lookupKey data ("ISBN:" ++ cleanIsbn isbn0) = none →
      lookup_isbn (.ok data) srch isbn0 = search_by_isbn srch (cleanIsbn isbn0)) ∧
    (∀ data bd co m, lookupKey data ("ISBN:" ++ cleanIsbn isbn0) = some bd →
      bd.cover = some co → co.medium = some m →
      lookup_isbn (.ok data) srch isbn0 = some { cover_url := m }) ∧
    (∀ data bd co s, lookupKey data ("ISBN:" ++ cleanIsbn isbn0) = some bd →
      bd.cover = some co → co.medium = none → co.small = some s →
      lookup_isbn (.ok data) srch isbn0 = some { cover_url := s }) ∧
    (∀ data bd, lookupKey data ("ISBN:" ++ cleanIsbn isbn0) = some bd →
      (bd.cover = none ∨ bd.cover = some { medium := none, small := none }) →
      lookup_isbn (.ok data) srch isbn0 = some { cover_url := "" }) := by
  refine ⟨?_, ?_, ?_, ?_, ?_⟩
  · intro bib
    cases bib with
    | error e => rfl
    | ok data => simp only [lookup_isbn, cleanIsbn_idem]
  · intro data hnone
    simp [lookup_isbn, hnone]
  · intro data bd co m hsome hco hm
    simp [lookup_isbn, hsome, hco, hm]
  · intro data bd co s hsome hco hm hs
    simp [lookup_isbn, hsome, hco, hm, hs]
  · intro data bd hsome hco
    rcases hco with hco | hco <;> simp [lookup_isbn, hsome, hco]

/-- Witness for claim C6: looking up `1-2 3` against a response holding
key `ISBN:123` with medium cover `M` yields `M`. -/
theorem c6_witness :
    lookup_isbn (.ok data6) (.error ()) "1-2 3" = some { cover_url := "M" } := by
  have h := (c6_lookup_isbn_behavior (.error ()) "1-2 3").2.2.1
  exact h data6 bd6 { medium := some "M", small := some "S" } "M"
    (by decide) (by decide) (by decide)

/-- Claim C7 as stated is false on the code: the code strips whitespace
before the comparison, so the Status value `" Read"` — which is none of
the four listed strings — still yields readingStatus `"Read"` instead of
the empty string. -/
theorem c7_counterexample :
    row7.status = some " Read" ∧
    (" Read" ≠ "Read" ∧ " Read" ≠ "Reading" ∧ " Read" ≠ "Unread" ∧
      " Read" ≠ "Want to Read") ∧
    (parseRow "x" row7).readingStatus = "Read" := by decide

/-- Claim C7 (amended): the Status column is whitespace-stripped and the
stripped value is matched exactly: `Read` maps to `Read`, `Reading` to
`Reading`, `Unread` and `Want to Read` both to `Want to Read`, and any
other stripped value (including empty or absent) leaves readingStatus
empty. -/
theorem c7_status_mapping (now : String) (row : CsvRow) :
    (pyStrip (row.status.getD "") = "Read" →
      (parseRow now row).readingStatus = "Read") ∧
    (pyStrip (row.status.getD "") = "Reading" →
      (parseRow now row).readingStatus = "Reading") ∧
    (pyStrip (row.status.getD "") = "Unread" →
      (parseRow now row).readingStatus = "Want to Read") ∧
    (pyStrip (row.status.getD "") = "Want to Read" →
      (parseRow now row).readingStatus = "Want to Read") ∧
    (pyStrip (row.status.getD "") ∉ ["Read", "Reading", "Unread", "Want to Read"] →
      (parseRow now row).readingStatus = "") := by
  have hr : (parseRow now row).readingStatus = mapStatus (pyStrip (row.status.getD "")) :=
    rfl
  refine ⟨?_, ?_, ?_, ?_, ?_⟩ <;> intro h <;> rw [hr]
  · rw [h]
    decide
  · rw [h]
    decide
  · rw [h]
    decide
  · rw [h]
    decide
  · simp only [List.mem_cons, List.not_mem_nil, or_false, not_or] at h
    obtain ⟨h1, h2, h3, h4⟩ := h
    simp [mapStatus, h1, h2, h3, h4]

/-- Witness for the amended claim C7: Status `Unread` maps to
`Want to Read`. -/
theorem c7_witness : (parseRow "x" row7w).readingStatus = "Want to Read" := by
  have h := (c7_status_mapping "x" row7w).2.2.1
  exact h (by decide)

/-- Claim C8: for every run over `N` surviving records the output document
has exactly `N` keys and they are exactly `book_0000 .. book_{N-1}`
(zero-padded decimal, sequential from 0 in input order, no gaps, pairwise
distinct). -/
theorem c8_output_keys (stamp : Int) (books : List BookRecord) :
    (firebaseBooks stamp books).length = books.length ∧
    (firebaseBooks stamp books).map Prod.fst = (List.range books.length).map bookKey ∧
    ((firebaseBooks stamp books).map Prod.fst).Nodup := by
  have hmap : (firebaseBooks stamp books).map Prod.fst =
      (List.range books.length).map bookKey := by
    unfold firebaseBooks
    rw [List.map_map]
    rw [show (Prod.fst ∘ fun p : Nat × BookRecord => (bookKey p.1, toOutputDoc stamp p.2))
      = bookKey ∘ Prod.fst from rfl]
    rw [← List.map_map, List.enum_map_fst]
  refine ⟨?_, hmap, ?_⟩
  · unfold firebaseBooks
    rw [List.length_map, List.enum_length]
  · rw [hmap]
    exact (List.nodup_range books.length).map bookKey_injective

/-- Claim C9: when no record survives filtering (for example every row has
an empty stripped Title) the output document is still produced (it is the
empty document), but the summary statistics divide by the record count of
zero and raise; the summary succeeds exactly when at least one record
survives. -/
theorem c9_zero_survivors (now : String) (stamp : Int) (rows : List CsvRow)
    (h : ∀ r ∈ rows, pyStrip (r.title.getD "") = "") :
    parse_bookbuddy_csv now rows = [] ∧
    firebaseBooks stamp [] = [] ∧
    summaryStats [] = none ∧
    (∀ books : List BookRecord, (summaryStats books).isSome ↔ books ≠ []) := by
  refine ⟨?_, rfl, by decide, ?_⟩
  · induction rows with
    | nil => rfl
    | cons r rest ih =>
      have ht : (parseRow now r).title = "" := h r (by simp)
      have htail := ih (fun r2 hr2 => h r2 (by simp [hr2]))
      simp [parse_bookbuddy_csv, ht, htail]
  · intro books
    cases books with
    | nil => simp [summaryStats, pyDiv]
    | cons b rest =>
      have hlen : (((b :: rest).length : Nat) : Rat) ≠ 0 := by
        rw [show (b :: rest).length = rest.length + 1 from rfl]
        exact Nat.cast_ne_zero.mpr (Nat.succ_ne_zero _)
      constructor
      · intro _
        simp
      · intro _
        simp only [summaryStats, pyDiv, if_neg hlen]
        rfl

/-- Witness for claim C9 at the spec scenario row (empty Title, Author
`X`): no record is produced and the summary computation raises. -/
theorem c9_witness :
    parse_bookbuddy_csv "now" [row9] = [] ∧ summaryStats [] = none := by
  have h := c9_zero_survivors "now" 0 [row9] (by decide)
  exact ⟨h.1, h.2.2.1⟩

/-- Claim C10: on a cache hit the cached entry's fields default
asymmetrically — a missing isbn field keeps the record's CSV isbn while a
missing coverURL field sets the record's coverURL to the empty string —
and a present cached isbn replaces the record's isbn even when the two
differ. -/
theorem c10_cache_hit_defaults (env : NetEnv) (p : ProgressState) (i : Nat)
    (b : BookRecord) (e : ProgressEntry)
    (hhit : lookupKey p.processed (naturalKey b) = some e) :
    (processOne env p i b).record.isbn = e.isbn.getD b.isbn ∧
    (processOne env p i b).record.coverURL = e.coverURL.getD "" ∧
    (e.isbn = none → (processOne env p i b).record.isbn = b.isbn) ∧
    (e.coverURL = none → (processOne env p i b).record.coverURL = "") ∧
    (∀ s, e.isbn = some s → (processOne env p i b).record.isbn = s) := by
  have h1 : (processOne env p i b).record.isbn = e.isbn.getD b.isbn := by
    simp [processOne, hhit]
  have h2 : (processOne env p i b).record.coverURL = e.coverURL.getD "" := by
    simp [processOne, hhit]
  refine ⟨h1, h2, ?_, ?_, ?_⟩
  · intro he
    rw [h1, he]
    rfl
  · intro he
    rw [h2, he]
    rfl
  · intro s he
    rw [h1, he]
    rfl

/-- Witness for claim C10: record `bA` (CSV isbn `A`) hits a cached entry
with isbn `B` and no coverURL field; its isbn becomes `B` and its coverURL
the empty string. -/
theorem c10_witness :
    (processOne errEnv pDiff 0 bA).record.isbn = "B" ∧
    (processOne errEnv pDiff 0 bA).record.coverURL = "" ∧
    bA.isbn = "A" := by
  have h := c10_cache_hit_defaults errEnv pDiff 0 bA ⟨some "B", none⟩ (by decide)
  exact ⟨h.2.2.2.2 "B" rfl, h.2.2.2.1 rfl, by decide⟩

end FamilyBooks
